import Mathlib

/-!
Verification development for the thumbnail-extraction and cache-index core of
`ffpreview.py` (single-file PyQt application).  The definitions below are a
shallow embedding of the relevant functions of the source file:

* `make_thumbs`   (parse loop, manifest write, lines 1792-1866),
* `select_flt`    (filter-expression construction, lines 1819-1829),
* `chk_idxfile`   (index validation, lines 1949-1989),
* `get_thinfo`    (candidate construction and cache decision, lines 1992-2031),
* `get_meta`      (metadata probe fallback chain, lines 1724-1789),
* `kill_proc`     (process termination, lines 161-172),
* `clear_thumbdir` (cache directory clearing, lines 2047-2071).

Python floats are modelled as exact rationals `ℚ`; the concrete inputs used in
the closed theorems below are chosen so that the corresponding IEEE-754 float
computations are exact, so the rational model agrees with the Python runtime on
them.  Python dicts with a statically known key set are modelled as structures;
keys that are only conditionally present are `Option` fields.  Subprocess
behaviour (exit codes, emitted stderr lines, raised I/O errors) is passed in as
explicit arguments, since the external tools are outside the program.
-/

namespace FFPreview

/-- Python `int(x)` applied to a numeric value: truncation toward zero.  Used
by `chk_idxfile` (`int(idx['duration'])`, line 1956) and by `make_thumbs`
(`int(float(cfg['time_skip']) * float(thinfo['fps']))`, line 1824).
On a rational in lowest terms this is the numerator divided by the
denominator with the quotient truncated toward zero (`Int.tdiv`). -/
def pyTrunc (q : ℚ) : ℤ := q.num.tdiv q.den

/-- Python `'%08d' % n` for a nonnegative `n`: decimal digits, left-padded
with zeros to a minimum width of 8 (line 1811, `pictemplate = '%08d.png'`). -/
def fmt08 (n : ℕ) : String :=
  let s := toString n
  String.mk (List.replicate (8 - s.length) '0') ++ s

/-- The resolved configuration dictionary `cfg`, restricted to the keys the
extraction/cache core reads.  Types follow `ffConfig.fixup_cfg`
(lines 370-383): `start`, `end`, `time_skip`, `scene_thresh` are floats,
`thumb_width`, `frame_skip`, `addss` are ints, `force`, `reuse` are bools,
`method`, `customvf`, `outdir` are strings. -/
structure Cfg where
  outdir : String
  start : ℚ
  «end» : ℚ
  thumb_width : ℤ
  method : String
  frame_skip : ℤ
  time_skip : ℚ
  scene_thresh : ℚ
  customvf : String
  addss : ℤ
  reuse : Bool
  force : Bool
  deriving DecidableEq, Repr

/-- One element of the manifest's `th` list: the positional triple
`[cnt, pictemplate % cnt, t]` appended at line 1850.  The timestamp string is
modelled by its exact rational value. -/
structure ThEntry where
  index : ℕ
  filename : String
  timestamp : ℚ
  deriving DecidableEq, Repr

/-- The `thinfo` dictionary built by `get_thinfo` (lines 1993-2019) and
persisted as the JSON manifest.  The four method-specific parameters are
`Option` fields because `get_thinfo` inserts only the one belonging to the
configured method (lines 2007-2014), and `chk_idxfile` explicitly tests for
their presence in a loaded manifest (lines 1973-1984). -/
structure ThInfo where
  name : String
  path : String
  frames : ℤ
  duration : ℚ
  fps : ℚ
  nsubs : ℤ
  start : ℚ
  «end» : ℚ
  count : ℤ
  width : ℤ
  method : String
  frame_skip : Option ℤ
  time_skip : Option ℚ
  scene_thresh : Option ℚ
  customvf : Option String
  addss : ℤ
  ffpreview : String
  date : ℤ
  th : List ThEntry
  deriving DecidableEq, Repr

/-- The entry appended for the `cnt`-th match of the `pts_time:` marker
(lines 1846-1850): index is the running counter, filename is the zero-padded
counter with the fixed `.png` extension, and the parsed timestamp is shifted
by the trim start when `cfg['start']` is truthy (nonzero). -/
def mkEntry (start : ℚ) (cnt : ℕ) (t : ℚ) : ThEntry :=
  { index := cnt
    filename := fmt08 cnt ++ ".png"
    timestamp := if start ≠ 0 then t + start else t }

/-- The stderr read loop of `make_thumbs` (lines 1839-1852).  Each stderr line
is represented by the result of the `pts_time:` regular-expression scan on it:
`some t` for a line containing the marker with parsed value `t`, `none` for a
line without a match.  The counter `cnt` and the accumulated `thinfo['th']`
list are threaded exactly as in the source. -/
def scan_lines (start : ℚ) : List (Option ℚ) → ℕ → List ThEntry → ℕ × List ThEntry
  | [], cnt, th => (cnt, th)
  | none :: ls, cnt, th => scan_lines start ls cnt th
  | some t :: ls, cnt, th =>
      scan_lines start ls (cnt + 1) (th ++ [mkEntry start (cnt + 1) t])

/-- Effective frame stride for the one-frame-per-N-seconds method:
`fs = int(float(cfg['time_skip']) * float(thinfo['fps']))` (line 1824). -/
def time_stride (time_skip fps : ℚ) : ℤ := pyTrunc (time_skip * fps)

/-- The frame-selection filter expression built by `make_thumbs`
(lines 1819-1829), one branch per selection method, defaulting to the
I-frame selector. -/
def select_flt (cfg : Cfg) (thinfo : ThInfo) : String :=
  if cfg.method = "scene" then
    "select=gt(scene\\," ++ toString cfg.scene_thresh ++ ")"
  else if cfg.method = "skip" then
    "select=not(mod(n\\," ++ toString cfg.frame_skip ++ "))"
  else if cfg.method = "time" then
    "select=not(mod(n\\," ++ toString (time_stride cfg.time_skip thinfo.fps) ++ "))"
  else if cfg.method = "customvf" then
    cfg.customvf
  else
    "select=eq(pict_type\\,I)"

/-- Result of one `make_thumbs` run: the (mutated) `thinfo` dictionary it
returns, the boolean `rc`, and the manifest written to
`<thdir>/ffpreview.idx`, if any (`none` models "no write happened"). -/
structure MakeThumbsResult where
  thinfo : ThInfo
  rc : Bool
  written : Option ThInfo
  deriving DecidableEq, Repr

/-- `make_thumbs` (lines 1792-1866), parse-and-persist part.  Inputs beyond
the dictionaries: `lines` is the subprocess's stderr as seen by the read loop
(see `scan_lines`), `retval` the extractor's exit code observed at line 1853,
`date` the value of `int(time.time())` at line 1860, and `write_raises`
whether opening/writing the index file raises (the `except` path,
lines 1863-1865; when it raises, no manifest is written and `rc` stays
`False`).  Note the source checks `retval` only to log diagnostics
(lines 1855-1857): the index file is written and `rc` set to `True`
regardless of the exit code. -/
def make_thumbs (cfg : Cfg) (thinfo : ThInfo) (lines : List (Option ℚ))
    (retval : ℤ) (date : ℤ) (write_raises : Bool) : MakeThumbsResult :=
  let s := scan_lines cfg.start lines 0 thinfo.th
  -- lines 1855-1857: a nonzero `retval` is only logged, nothing else branches on it
  let _logged_failure := retval ≠ 0
  let thinfo1 : ThInfo := { thinfo with th := s.2, count := (s.1 : ℤ) }
  if write_raises then
    { thinfo := thinfo1, rc := false, written := none }
  else
    let thinfo2 : ThInfo := { thinfo1 with date := date }
    { thinfo := thinfo2, rc := true, written := some thinfo2 }

/-- Common shape of the four method-parameter checks of `chk_idxfile`
(lines 1973-1984): `if not 'k' in idx or idx['k'] != thinfo['k']: return
False`.  `i` is the loaded manifest's value (`none` = key absent), `t` the
candidate's (`none` = key absent, so that the lookup `thinfo['k']` raises
`KeyError`, caught by the surrounding `except`, which also yields `False`);
`k` is the manifest to return when the check passes and the chain falls
through to `return idx`. -/
def opt_param_eq {α : Type} [DecidableEq α] (i t : Option α) (k : ThInfo) : Option ThInfo :=
  match i, t with
  | some a, some b => if a ≠ b then none else some k
  | _, _ => none

/-- `chk_idxfile` (lines 1949-1989).  The `idx0` argument models the result of
opening and JSON-parsing `<thdir>/ffpreview.idx`: `none` when the open or the
parse (or a mandatory-key access) raises — the `except` handler at
lines 1986-1988 then makes the function return `False` — and `some idx` for a
successfully parsed manifest.  The return value models Python's
`return idx` / `return False`: `some idx` is the accepted (truthy) manifest,
`none` is `False`.  The method-parameter checks (lines 1973-1984) first test
key presence in the loaded manifest; if the key is present there but absent
from the candidate, the candidate lookup raises `KeyError`, which the same
`except` handler turns into `False` — hence every `Option` pattern other than
`some a, some b` yields `none`. -/
def chk_idxfile (reuse : Bool) (thinfo : ThInfo) (idx0 : Option ThInfo) : Option ThInfo :=
  match idx0 with
  | none => none
  | some idx =>
    if idx.name ≠ thinfo.name then none
    else if pyTrunc idx.duration ≠ pyTrunc thinfo.duration then none
    else if idx.start ≠ thinfo.start then none
    else if idx.«end» ≠ thinfo.«end» then none
    else if idx.count ≠ (idx.th.length : ℤ) then none
    else if ¬ reuse then
      if idx.width ≠ thinfo.width then none
      else if idx.nsubs ≠ thinfo.nsubs then none
      else if idx.addss ≠ thinfo.addss then none
      else if idx.method ≠ thinfo.method then none
      else if idx.method = "skip" then opt_param_eq idx.frame_skip thinfo.frame_skip idx
      else if idx.method = "time" then opt_param_eq idx.time_skip thinfo.time_skip idx
      else if idx.method = "scene" then opt_param_eq idx.scene_thresh thinfo.scene_thresh idx
      else if idx.method = "customvf" then opt_param_eq idx.customvf thinfo.customvf idx
      else some idx
    else some idx

/-- Specification-side predicate: the single parameter belonging to the
current selection method is present in the existing manifest and equals the
candidate's (`frame_skip` for `skip`, `time_skip` for `time`, `scene_thresh`
for `scene`, `customvf` for `customvf`; no requirement for other methods). -/
def method_param_ok (idx thinfo : ThInfo) : Prop :=
  (thinfo.method = "skip" → idx.frame_skip ≠ none ∧ idx.frame_skip = thinfo.frame_skip)
  ∧ (thinfo.method = "time" → idx.time_skip ≠ none ∧ idx.time_skip = thinfo.time_skip)
  ∧ (thinfo.method = "scene" → idx.scene_thresh ≠ none ∧ idx.scene_thresh = thinfo.scene_thresh)
  ∧ (thinfo.method = "customvf" → idx.customvf ≠ none ∧ idx.customvf = thinfo.customvf)

instance (idx thinfo : ThInfo) : Decidable (method_param_ok idx thinfo) := by
  unfold method_param_ok; infer_instance

/-- Specification-side predicate, following the spec's words for §4.3
`validate`: the full acceptance condition of `chk_idxfile` on a successfully
parsed manifest `idx` against candidate `thinfo`. -/
def chk_matches (reuse : Bool) (thinfo idx : ThInfo) : Prop :=
  idx.name = thinfo.name
  ∧ pyTrunc idx.duration = pyTrunc thinfo.duration
  ∧ idx.start = thinfo.start
  ∧ idx.«end» = thinfo.«end»
  ∧ idx.count = (idx.th.length : ℤ)
  ∧ (reuse = false →
      idx.width = thinfo.width
      ∧ idx.nsubs = thinfo.nsubs
      ∧ idx.addss = thinfo.addss
      ∧ idx.method = thinfo.method
      ∧ method_param_ok idx thinfo)

instance (reuse : Bool) (thinfo idx : ThInfo) : Decidable (chk_matches reuse thinfo idx) := by
  unfold chk_matches; infer_instance

/-- The metadata record assembled by `get_meta` (line 1725). -/
structure VideoMeta where
  frames : ℤ
  duration : ℚ
  fps : ℚ
  nsubs : ℤ
  deriving DecidableEq, Repr

/-- The JSON document returned by the fast `ffprobe` query (lines 1738-1744),
reduced to the fields `get_meta` reads: the primary video stream's optional
`duration` and the container format's optional `duration` (both parsed by
`float`), the stream's optional `nb_frames` (parsed by `int`) and optional
`avg_frame_rate` (parsed by `sfrac2float`). -/
structure FastProbe where
  str_duration : Option ℚ
  fmt_duration : Option ℚ
  nb_frames : Option ℤ
  avg_frame_rate : Option ℚ
  deriving DecidableEq, Repr

/-- The JSON document returned by the packet-counting `ffprobe` query
(lines 1765-1766): `streams[0].nb_read_packets` and `format.duration`. -/
structure PacketProbe where
  nb_read_packets : ℤ
  duration : ℚ
  deriving DecidableEq, Repr

/-- Python `round(x, 2)` as used at lines 1773 and 1786. -/
def round2 (q : ℚ) : ℚ := (round (q * 100) : ℚ) / 100

/-- Strategy 1 of `get_meta` (lines 1737-1763): the fast `ffprobe`
stream/format query.  Input `none` models a nonzero `ffprobe` exit code.
Returns the `(frames, duration, fps)` triple recorded into `meta` when the
strategy succeeds (reaches the `return meta, True` at line 1763), `none` when
it falls through to the next strategy. -/
def fast_result (p1 : Option FastProbe) : Option (ℤ × ℚ × ℚ) :=
  match p1 with
  | none => none
  | some fp =>
    let d0 := match fp.str_duration with
              | some d => some d
              | none => fp.fmt_duration
    match d0 with
    | none => none
    | some d =>
      let d := max d (1 / 1000000 : ℚ)
      match fp.nb_frames with
      | some f => some (f, d, (f : ℚ) / d)
      | none =>
        match fp.avg_frame_rate with
        | some fps => some (pyTrunc (fps * d), d, fps)
        | none => none

/-- Strategy 2 of `get_meta` (lines 1764-1774): the packet-count query.
Input `none` models a nonzero exit code. -/
def packet_result (p2 : Option PacketProbe) : Option (ℤ × ℚ × ℚ) :=
  match p2 with
  | none => none
  | some pp =>
    let f := pp.nb_read_packets
    let d := max pp.duration (1 / 10000 : ℚ)
    some (f, d, round2 ((f : ℚ) / d))

/-- Strategy 3 of `get_meta` (lines 1775-1787): run `ffmpeg` in copy/discard
mode and scan its stderr for the first line matching
`frame=\s*(\d+).*time=\s*(h:m:s)`.  Input `none` models a nonzero exit code;
otherwise each stderr line is represented by its optional match, the pair of
the parsed frame count and the `hms2s` value of the matched time. -/
def ffmpeg_result (p3 : Option (List (Option (ℤ × ℚ)))) : Option (ℤ × ℚ × ℚ) :=
  match p3 with
  | none => none
  | some ls =>
    match ls.filterMap id with
    | [] => none
    | (f, t) :: _ =>
      let d := max t (1 / 10000 : ℚ)
      some (f, d, round2 ((f : ℚ) / d))

/-- The subtitle-stream count set by lines 1730-1735: the number of lines the
dedicated probe printed when it exits 0, the initial `-1` otherwise. -/
def nsubs_of (ps : Option ℕ) : ℤ :=
  match ps with
  | some n => (n : ℤ)
  | none => -1

/-- The `meta` dictionary as recorded by a successful strategy: the
`(frames, duration, fps)` triple it computed, with the independently probed
subtitle-stream count. -/
def meta_of (ps : Option ℕ) (r : ℤ × ℚ × ℚ) : VideoMeta :=
  { frames := r.1, duration := r.2.1, fps := r.2.2, nsubs := nsubs_of ps }

/-- `get_meta` (lines 1724-1789).  `ps` models the subtitle-stream counting
probe (lines 1730-1735): `some n` when it exits 0 having printed `n` lines,
`none` on a nonzero exit; its failure only leaves `nsubs = -1`.  The three
strategy inputs are as in `fast_result`, `packet_result`, `ffmpeg_result`.
Runs in which an uncaught exception escapes `get_meta` (e.g. malformed probe
JSON) return nothing at all and are outside this model. -/
def get_meta (ps : Option ℕ) (p1 : Option FastProbe) (p2 : Option PacketProbe)
    (p3 : Option (List (Option (ℤ × ℚ)))) : VideoMeta × Bool :=
  match fast_result p1 with
  | some r => (meta_of ps r, true)
  | none =>
    match packet_result p2 with
    | some r => (meta_of ps r, true)
    | none =>
      match ffmpeg_result p3 with
      | some r => (meta_of ps r, true)
      | none => ({ frames := -1, duration := -1, fps := -1, nsubs := nsubs_of ps }, false)

/-- The fresh `thinfo` dictionary built by `get_thinfo` before probing
(lines 1993-2019): sentinel meta fields, trim and width from `cfg`, exactly
the method-specific parameter of the configured method, `addss` from `cfg`,
empty entry list. -/
def init_thinfo (cfg : Cfg) (name path : String) : ThInfo :=
  { name := name
    path := path
    frames := -1
    duration := -1
    fps := -1
    nsubs := -1
    start := cfg.start
    «end» := cfg.«end»
    count := 0
    width := cfg.thumb_width
    method := cfg.method
    frame_skip := if cfg.method = "skip" then some cfg.frame_skip else none
    time_skip := if cfg.method = "time" then some cfg.time_skip else none
    scene_thresh := if cfg.method = "scene" then some cfg.scene_thresh else none
    customvf := if cfg.method = "customvf" then some cfg.customvf else none
    addss := cfg.addss
    ffpreview := "0.3+"
    date := 0
    th := [] }

/-- The candidate manifest `get_thinfo` holds after `thinfo.update(meta)` and
the subtitle-selection sanitisation (lines 2024-2026): the probed meta fields
are merged in, and `addss` is reset to `-1` when it is not below the probed
subtitle-stream count. -/
def get_thinfo_candidate (cfg : Cfg) (name path : String) (meta : VideoMeta) : ThInfo :=
  let thinfo := init_thinfo cfg name path
  let thinfo := { thinfo with
    frames := meta.frames
    duration := meta.duration
    fps := meta.fps
    nsubs := meta.nsubs }
  if thinfo.addss ≥ thinfo.nsubs then { thinfo with addss := -1 } else thinfo

/-- `get_thinfo` (lines 1992-2031).  `name`/`path` are the basename and
directory of the video file, `(meta, ok)` the `get_meta` result, `idx0` the
loaded on-disk index as in `chk_idxfile`.  Returns `(None, False)` when the
probe failed; `(some cached, True)` on a cache hit; `(some fresh, False)` when
a rebuild is needed (also whenever `cfg['force']` is set, which skips the
check). -/
def get_thinfo (cfg : Cfg) (name path : String) (meta : VideoMeta) (ok : Bool)
    (idx0 : Option ThInfo) : Option ThInfo × Bool :=
  if !ok then (none, false)
  else
    let thinfo := get_thinfo_candidate cfg name path meta
    if !cfg.force then
      match chk_idxfile cfg.reuse thinfo idx0 with
      | some chk => (some chk, true)
      | none => (some thinfo, false)
    else (some thinfo, false)

/-- The global names bound at module scope of `ffpreview.py` by its import
statements (lines 61-84): `import sys`, `import platform, io, os, signal,
time, re, tempfile, argparse, json`, `from configparser import
RawConfigParser as ConfigParser`, `from subprocess import PIPE, Popen,
DEVNULL`, `import shlex`, `import base64`, `from copy import deepcopy`,
`from inspect import currentframe`, plus the Qt wildcard imports (which bind
only Qt class names).  Note the name `subprocess` itself is never bound: only
three names are imported *from* that module. -/
def module_global_imports : List String :=
  ["sys", "platform", "io", "os", "signal", "time", "re", "tempfile",
   "argparse", "json", "ConfigParser", "PIPE", "Popen", "DEVNULL", "shlex",
   "base64", "deepcopy", "currentframe"]

/-- Outcome of `p.wait(timeout=3)` at line 169 on a live process: either the
process exits within the 3-second grace period, or the wait raises
`TimeoutExpired`. -/
inductive WaitOutcome
  | exited
  | timedOut
  deriving DecidableEq, Repr

/-- Observable outcome of a `kill_proc` call on a live process handle:
either the function returns `None` (so the caller's `proc = kill_proc(...)`
clears the handle), or an exception propagates out of it uncaught (the
assignment never runs and the handle is not cleared). -/
inductive KillOutcome
  | returned_none
  | raises (undefined_name : String)
  deriving DecidableEq, Repr

/-- `kill_proc` (lines 161-172) applied to a live process.  `p.terminate()`
is sent, then `p.wait(timeout=3)`.  If the wait returns, the function falls
through to `return None`.  If the wait raises `TimeoutExpired`, Python
evaluates the handler expression `subprocess.TimeoutExpired` (line 170),
which first resolves the global name `subprocess`; only if that name is bound
does the handler match and `p.kill()` run, followed by `return None`.  If the
name is unbound, the lookup raises `NameError`, which propagates out of
`kill_proc`. -/
def kill_proc (bound : List String) (w : WaitOutcome) : KillOutcome :=
  match w with
  | .exited => .returned_none
  | .timedOut =>
      if bound.contains "subprocess" then .returned_none
      else .raises "subprocess"

/-- `os.path.dirname` for POSIX paths: the substring up to the last `/`,
with trailing slashes stripped unless the result consists only of slashes. -/
def dirname (p : String) : String :=
  let r := p.data.reverse.dropWhile (fun c => c ≠ '/')
  if r = [] then ""
  else
    let s := r.dropWhile (fun c => c = '/')
    if s = [] then String.mk r.reverse
    else String.mk s.reverse

/-- The fixed thumbnail file-name pattern `^\d{8}\.png$` (line 2066). -/
def is_thumb_png (f : String) : Bool :=
  f.data.length = 12 && (f.data.take 8).all Char.isDigit
    && f.data.drop 8 = ['.', 'p', 'n', 'g']

/-- Result of a `clear_thumbdir` call: `denied` and `mkdirFailed` model the
two `return False` paths (lines 2050 and 2057), `cleared` the fall-through
success (Python `None`). -/
inductive ClearResult
  | denied
  | mkdirFailed
  | cleared
  deriving DecidableEq, Repr

/-- `clear_thumbdir` (lines 2047-2071).  `contents` is the list of file names
currently inside `thdir`; `mkdir_raises` models `os.makedirs` raising;
`locked` is the set of files whose `os.unlink` raises (such failures are
logged and skipped, lines 2062-2064 and 2069-2071).  Returns the result code
and the directory contents afterwards.  The guard at line 2048 refuses to
touch any directory whose `os.path.dirname` is not the configured cache root
`cfg['outdir']`; in that case nothing is deleted. -/
def clear_thumbdir (outdir thdir : String) (contents : List String)
    (mkdir_raises : Bool) (locked : List String) : ClearResult × List String :=
  if dirname thdir ≠ outdir then (.denied, contents)
  else if mkdir_raises then (.mkdirFailed, contents)
  else
    (.cleared, contents.filter (fun f =>
      !((f == "ffpreview.idx" || is_thumb_png f) && !locked.contains f)))

/-- A concrete resolved configuration (the shipped defaults with a fixed
output directory), used as input for the closed evaluation theorems below. -/
def cfg0 : Cfg :=
  { outdir := "/tmp/ffpreview_thumbs"
    start := 0
    «end» := 0
    thumb_width := 192
    method := "iframe"
    frame_skip := 200
    time_skip := 60
    scene_thresh := mkRat 1 5
    customvf := "scdet=s=1:t=12"
    addss := -1
    reuse := false
    force := false }

/-- A concrete probed metadata record: a 300-second 30-fps video. -/
def meta0 : VideoMeta := { frames := 9000, duration := 300, fps := 30, nsubs := 0 }

/-- The candidate manifest `get_thinfo` builds for `meta0` under `cfg0`. -/
def thinfo0 : ThInfo := get_thinfo_candidate cfg0 "v.mp4" "/home/u" meta0

/-- `cfg0` switched to the one-frame-per-N-seconds method with N = 1. -/
def cfg_time : Cfg := { cfg0 with method := "time", time_skip := 1 }

/-- A candidate manifest whose probed fps is 29.5 (expressible exactly both
as a rational and as an IEEE-754 double, so the model agrees with the Python
float computation on it). -/
def thinfo_fps295 : ThInfo :=
  get_thinfo_candidate cfg_time "v.mp4" "/home/u" { meta0 with fps := mkRat 59 2 }

/-- `cfg0` requesting subtitle stream 0. -/
def cfg_addss0 : Cfg := { cfg0 with addss := 0 }

/-- A probed metadata record whose subtitle-stream probe failed
(`nsubs = -1`). -/
def meta_nosubs : VideoMeta := { meta0 with nsubs := -1 }

/-- C1 counterexample: a run in which the extractor exits with code 1 after
two thumbnails were parsed still writes a manifest (the one carried in the
returned `thinfo`, with the partial entry list and `count = 2`) and even
reports success (`rc = True`): the exit code is checked only for logging
(lines 1855-1857) and the index write at lines 1859-1862 is unconditional. -/
theorem make_thumbs_writes_manifest_on_nonzero_exit :
    (make_thumbs cfg0 thinfo0 [some 0, some 2] 1 5 false).written
        = some (make_thumbs cfg0 thinfo0 [some 0, some 2] 1 5 false).thinfo
    ∧ (make_thumbs cfg0 thinfo0 [some 0, some 2] 1 5 false).thinfo.th ≠ []
    ∧ (make_thumbs cfg0 thinfo0 [some 0, some 2] 1 5 false).thinfo.count = 2
    ∧ (make_thumbs cfg0 thinfo0 [some 0, some 2] 1 5 false).rc = true := by
  refine ⟨rfl, ?_, rfl, rfl⟩
  decide

/-- C1 (amended): whenever the read loop and the index write complete without
raising, `make_thumbs` persists the manifest (including the partially built
entry list) and returns `rc = True`, regardless of the extractor's exit
status; a nonzero exit status only produces diagnostics. -/
theorem make_thumbs_write_independent_of_exit_code :
    ∀ (cfg : Cfg) (thinfo : ThInfo) (lines : List (Option ℚ)) (retval date : ℤ),
      retval ≠ 0 →
      (make_thumbs cfg thinfo lines retval date false).written
          = some (make_thumbs cfg thinfo lines retval date false).thinfo
      ∧ (make_thumbs cfg thinfo lines retval date false).rc = true := by
  intro cfg thinfo lines retval date _h
  exact ⟨rfl, rfl⟩

/-- Witness for the amended C1 theorem at a concrete failing run. -/
theorem make_thumbs_write_independent_of_exit_code_witness :
    (1 : ℤ) ≠ 0
    ∧ ((make_thumbs cfg0 thinfo0 [some 0, some 2] 1 5 false).written
          = some (make_thumbs cfg0 thinfo0 [some 0, some 2] 1 5 false).thinfo
       ∧ (make_thumbs cfg0 thinfo0 [some 0, some 2] 1 5 false).rc = true) :=
  ⟨by decide, make_thumbs_write_independent_of_exit_code cfg0 thinfo0 [some 0, some 2] 1 5 (by decide)⟩

/-- C5: the graceful path of `kill_proc` returns `None`, but on a process
that is still alive when the 3-second wait expires, evaluating the handler
expression `subprocess.TimeoutExpired` (line 170) raises `NameError`, because
the module never binds the name `subprocess` (line 77 imports only `PIPE`,
`Popen`, `DEVNULL` from it): `p.kill()` is never executed and the exception
escapes `kill_proc`, so the caller's handle-clearing assignment never runs. -/
theorem kill_proc_timeout_raises_nameerror :
    kill_proc module_global_imports WaitOutcome.exited = KillOutcome.returned_none
    ∧ kill_proc module_global_imports WaitOutcome.timedOut = KillOutcome.raises "subprocess" := by
  exact ⟨rfl, by decide⟩

/-- C6 counterexample: with `time_skip = 1` second and a probed fps of 29.5,
the stride actually passed into the every-Nth-frame filter is
`int(1.0 * 29.5) = 29` (truncation, line 1824), whereas `round(1 × 29.5)`
is 30 — and 29.5 is representable exactly as a double, so the float
computation agrees with this rational model. -/
theorem time_stride_truncates_not_rounds :
    time_stride 1 (mkRat 59 2) = 29
    ∧ round ((1 : ℚ) * mkRat 59 2) = 30
    ∧ select_flt cfg_time thinfo_fps295 = "select=not(mod(n\\,29))" := by
  have h1 : time_stride 1 (mkRat 59 2) = 29 := by
    show pyTrunc ((1 : ℚ) * mkRat 59 2) = 29
    rw [one_mul]
    decide
  refine ⟨h1, ?_, ?_⟩
  · rw [round_eq]
    norm_num [mkRat, Rat.normalize]
  · have h2 : time_stride 1 thinfo_fps295.fps = 29 := h1
    simp [select_flt, cfg_time, cfg0, h2]
    all_goals decide

/-- C6 (amended): for the one-frame-per-N-seconds method the effective frame
stride is `int(N × fps)` — the product truncated toward zero, not rounded —
and with that stride the built filter expression coincides with the one the
every-Nth-frame method would build. -/
theorem select_flt_time_eq_skip_with_trunc_stride :
    ∀ (cfg : Cfg) (thinfo : ThInfo), cfg.method = "time" →
      select_flt cfg thinfo
        = select_flt
            { cfg with method := "skip", frame_skip := time_stride cfg.time_skip thinfo.fps }
            thinfo := by
  intro cfg thinfo h
  simp [select_flt, h]

/-- Helper: the method-parameter check shape evaluates to the loaded
manifest exactly when the parameter is present on both sides and equal. -/
theorem opt_param_eq_eq {α : Type} [DecidableEq α] (i t : Option α) (k : ThInfo) :
    opt_param_eq i t k = if i ≠ none ∧ i = t then some k else none := by
  rcases i with _ | a <;> rcases t with _ | b
  · simp [opt_param_eq]
  · simp [opt_param_eq]
  · simp [opt_param_eq]
  · by_cases h : a = b <;> simp [opt_param_eq, h]

/-- Helper: `chk_idxfile` on a successfully parsed manifest is the
characteristic function of `chk_matches`, returning the manifest itself on
acceptance. -/
theorem chk_idxfile_eq (reuse : Bool) (thinfo idx : ThInfo) :
    chk_idxfile reuse thinfo (some idx)
      = if chk_matches reuse thinfo idx then some idx else none := by
  unfold chk_idxfile
  by_cases h1 : idx.name = thinfo.name
  swap
  · simp [chk_matches, h1]
  by_cases h2 : pyTrunc idx.duration = pyTrunc thinfo.duration
  swap
  · simp [chk_matches, h1, h2]
  by_cases h3 : idx.start = thinfo.start
  swap
  · simp [chk_matches, h1, h2, h3]
  by_cases h4 : idx.«end» = thinfo.«end»
  swap
  · simp [chk_matches, h1, h2, h3, h4]
  by_cases h5 : idx.count = (idx.th.length : ℤ)
  swap
  · simp [chk_matches, h1, h2, h3, h4, h5]
  rcases reuse with _ | _
  swap
  · simp [chk_matches, h1, h2, h3, h4, h5]
  by_cases h6 : idx.width = thinfo.width
  swap
  · simp [chk_matches, h1, h2, h3, h4, h5, h6]
  by_cases h7 : idx.nsubs = thinfo.nsubs
  swap
  · simp [chk_matches, h1, h2, h3, h4, h5, h6, h7]
  by_cases h8 : idx.addss = thinfo.addss
  swap
  · simp [chk_matches, h1, h2, h3, h4, h5, h6, h7, h8]
  by_cases h9 : idx.method = thinfo.method
  swap
  · simp [chk_matches, h1, h2, h3, h4, h5, h6, h7, h8, h9]
  by_cases hm1 : idx.method = "skip"
  · have hmt : thinfo.method = "skip" := by rw [← h9, hm1]
    by_cases hp : idx.frame_skip ≠ none ∧ idx.frame_skip = thinfo.frame_skip <;>
      simp [chk_matches, method_param_ok, opt_param_eq_eq,
            h1, h2, h3, h4, h5, h6, h7, h8, h9, hm1, hmt, hp]
  by_cases hm2 : idx.method = "time"
  · have hmt : thinfo.method = "time" := by rw [← h9, hm2]
    by_cases hp : idx.time_skip ≠ none ∧ idx.time_skip = thinfo.time_skip <;>
      simp [chk_matches, method_param_ok, opt_param_eq_eq,
            h1, h2, h3, h4, h5, h6, h7, h8, h9, hm1, hm2, hmt, hp]
  by_cases hm3 : idx.method = "scene"
  · have hmt : thinfo.method = "scene" := by rw [← h9, hm3]
    by_cases hp : idx.scene_thresh ≠ none ∧ idx.scene_thresh = thinfo.scene_thresh <;>
      simp [chk_matches, method_param_ok, opt_param_eq_eq,
            h1, h2, h3, h4, h5, h6, h7, h8, h9, hm1, hm2, hm3, hmt, hp]
  by_cases hm4 : idx.method = "customvf"
  · have hmt : thinfo.method = "customvf" := by rw [← h9, hm4]
    by_cases hp : idx.customvf ≠ none ∧ idx.customvf = thinfo.customvf <;>
      simp [chk_matches, method_param_ok, opt_param_eq_eq,
            h1, h2, h3, h4, h5, h6, h7, h8, h9, hm1, hm2, hm3, hm4, hmt, hp]
  · simp [chk_matches, method_param_ok, ← h9,
          h1, h2, h3, h4, h5, h6, h7, h8, hm1, hm2, hm3, hm4]

/-- C2: `chk_idxfile` accepts an existing manifest (returning it) if and only
if all of the claim's conditions hold — file name equal, duration equal after
truncation to whole seconds, start/end trim equal, `count` equal to the
length of the stored entry list, and, when reuse mode is off, width,
subtitle-stream count, subtitle-stream selection and method equal plus the
current method's specific parameter present and equal; any mismatch yields
the rebuild decision `False`. -/
theorem chk_idxfile_accepts_iff :
    ∀ (reuse : Bool) (thinfo idx : ThInfo),
      (chk_idxfile reuse thinfo (some idx) = some idx ↔ chk_matches reuse thinfo idx)
      ∧ (¬ chk_matches reuse thinfo idx → chk_idxfile reuse thinfo (some idx) = none) := by
  intro reuse thinfo idx
  constructor
  · rw [chk_idxfile_eq]
    split_ifs with h <;> simp [h]
  · intro h
    rw [chk_idxfile_eq]
    simp [h]

/-- Witness for C2: a manifest identical to the candidate (with a consistent
`count`) is accepted under the default configuration. -/
theorem chk_idxfile_accepts_iff_witness :
    chk_idxfile false thinfo0 (some thinfo0) = some thinfo0 :=
  ((chk_idxfile_accepts_iff false thinfo0 thinfo0).1).mpr (by decide)

/-- C3: for every directory whose `os.path.dirname` differs from the
configured cache root, `clear_thumbdir` refuses (`return False` at
line 2050) and deletes nothing; conversely, whenever the directory contents
change at all, the parent was the cache root. -/
theorem clear_thumbdir_refuses_outside_cache_root :
    ∀ (outdir thdir : String) (contents : List String) (mk : Bool) (locked : List String),
      (dirname thdir ≠ outdir →
        clear_thumbdir outdir thdir contents mk locked = (ClearResult.denied, contents))
      ∧ ((clear_thumbdir outdir thdir contents mk locked).2 ≠ contents →
          dirname thdir = outdir) := by
  intro outdir thdir contents mk locked
  constructor
  · intro h
    simp [clear_thumbdir, h]
  · intro h
    by_contra hne
    exact h (by simp [clear_thumbdir, hne])

/-- Witness for C3: clearing `/etc` (whose parent `/` is not the cache root)
is refused and deletes nothing, index file and stray thumbnail names
included. -/
theorem clear_thumbdir_refuses_outside_cache_root_witness :
    dirname "/etc" ≠ "/tmp/ffpreview_thumbs"
    ∧ clear_thumbdir "/tmp/ffpreview_thumbs" "/etc"
        ["ffpreview.idx", "00000001.png", "passwd"] false []
        = (ClearResult.denied, ["ffpreview.idx", "00000001.png", "passwd"]) :=
  ⟨by decide,
   (clear_thumbdir_refuses_outside_cache_root "/tmp/ffpreview_thumbs" "/etc"
      ["ffpreview.idx", "00000001.png", "passwd"] false []).1 (by decide)⟩

/-- C9: a missing, unreadable or unparsable index file — modelled by the
`none` load result, covering the raising paths caught at lines 1986-1988 —
makes `chk_idxfile` return `False`, and `get_thinfo` then takes the rebuild
path, returning the freshly built candidate with the `ok = False` rebuild
flag instead of failing the request (lines 2027-2031). -/
theorem chk_idxfile_load_failure_means_rebuild :
    ∀ (reuse : Bool) (thinfo : ThInfo) (cfg : Cfg) (name path : String) (meta : VideoMeta),
      chk_idxfile reuse thinfo none = none
      ∧ get_thinfo cfg name path meta true none
          = (some (get_thinfo_candidate cfg name path meta), false) := by
  intro reuse thinfo cfg name path meta
  refine ⟨rfl, ?_⟩
  by_cases hf : cfg.force <;> simp [get_thinfo, hf, chk_idxfile]

/-- Helper: closed form of the stderr read loop.  Starting from counter
`cnt` and accumulated list `th`, the loop adds one entry per matched line, in
order, with counters `cnt+1, cnt+2, …` and the matched values in sequence. -/
theorem scan_lines_eq (start : ℚ) (lines : List (Option ℚ)) :
    ∀ (cnt : ℕ) (th : List ThEntry),
      scan_lines start lines cnt th
        = (cnt + (lines.filterMap id).length,
           th ++ (List.range (lines.filterMap id).length).map
                   (fun i => mkEntry start (cnt + i + 1) ((lines.filterMap id).getD i 0))) := by
  induction lines with
  | nil => intro cnt th; simp [scan_lines]
  | cons l ls ih =>
    intro cnt th
    rcases l with _ | t
    · simpa [scan_lines, List.filterMap_cons] using ih cnt th
    · rw [scan_lines, ih (cnt + 1) (th ++ [mkEntry start (cnt + 1) t])]
      simp [List.filterMap_cons, List.range_succ_eq_map, List.map_map, Function.comp,
            List.getD_cons_succ, List.getD_cons_zero,
            Nat.add_assoc, Nat.add_comm, Nat.add_left_comm]

/-- C7: for every stderr line matched by the `pts_time:` marker, the entry
appended by `make_thumbs` carries the running 1-based counter as its index,
the counter zero-padded to 8 digits with the fixed `.png` extension as its
file name, and the parsed timestamp shifted by the trim start exactly when a
nonzero trim start is configured. -/
theorem make_thumbs_entry_construction :
    ∀ (cfg : Cfg) (thinfo : ThInfo) (lines : List (Option ℚ)) (retval date : ℤ) (w : Bool),
      thinfo.th = [] →
      (make_thumbs cfg thinfo lines retval date w).thinfo.th
        = (List.range (lines.filterMap id).length).map
            (fun i =>
              { index := i + 1
                filename := fmt08 (i + 1) ++ ".png"
                timestamp :=
                  if cfg.start ≠ 0 then (lines.filterMap id).getD i 0 + cfg.start
                  else (lines.filterMap id).getD i 0 }) := by
  intro cfg thinfo lines retval date w h
  rcases w <;> simp [make_thumbs, scan_lines_eq, h, mkEntry]

/-- Witness for C7 on a concrete run: three stderr lines, two of which carry
the marker, yield entries `(1, "00000001.png", 0)` and `(2, "00000002.png", 2)`
with no shift since the trim start is zero. -/
theorem make_thumbs_entry_construction_witness :
    thinfo0.th = []
    ∧ (make_thumbs cfg0 thinfo0 [some 0, none, some 2] 7 5 false).thinfo.th
        = (List.range (([some 0, none, some 2] : List (Option ℚ)).filterMap id).length).map
            (fun i =>
              { index := i + 1
                filename := fmt08 (i + 1) ++ ".png"
                timestamp :=
                  if cfg0.start ≠ 0 then
                    (([some 0, none, some 2] : List (Option ℚ)).filterMap id).getD i 0 + cfg0.start
                  else (([some 0, none, some 2] : List (Option ℚ)).filterMap id).getD i 0 }) :=
  ⟨rfl, make_thumbs_entry_construction cfg0 thinfo0 [some 0, none, some 2] 7 5 false rfl⟩

/-- C8: every manifest persisted by `make_thumbs` (from the fresh candidate,
whose entry list starts empty) is self-consistent: its `count` equals the
length of its entry list and the entries' indices are exactly the strict
sequence `1..count` in list order. -/
theorem make_thumbs_manifest_selfconsistent :
    ∀ (cfg : Cfg) (thinfo : ThInfo) (lines : List (Option ℚ)) (retval date : ℤ) (w : Bool),
      thinfo.th = [] →
      ∀ m, (make_thumbs cfg thinfo lines retval date w).written = some m →
        m.count = (m.th.length : ℤ)
        ∧ m.th.map ThEntry.index = (List.range m.th.length).map (fun i => i + 1) := by
  intro cfg thinfo lines retval date w h m hm
  rcases w
  case false =>
    have hw : (make_thumbs cfg thinfo lines retval date false).written
        = some ((make_thumbs cfg thinfo lines retval date false).thinfo) := rfl
    rw [hw] at hm
    obtain rfl : (make_thumbs cfg thinfo lines retval date false).thinfo = m :=
      Option.some_injective _ hm
    constructor
    · simp [make_thumbs, scan_lines_eq, h]
    · simp [make_thumbs, scan_lines_eq, h, mkEntry, List.map_map, Function.comp]
  case true =>
    simp [make_thumbs] at hm

/-- Witness for C8 on a concrete successful run with two parsed entries. -/
theorem make_thumbs_manifest_selfconsistent_witness :
    (make_thumbs cfg0 thinfo0 [some 0, some 2] 0 5 false).thinfo.count
        = ((make_thumbs cfg0 thinfo0 [some 0, some 2] 0 5 false).thinfo.th.length : ℤ)
    ∧ (make_thumbs cfg0 thinfo0 [some 0, some 2] 0 5 false).thinfo.th.map ThEntry.index
        = (List.range (make_thumbs cfg0 thinfo0 [some 0, some 2] 0 5 false).thinfo.th.length).map
            (fun i => i + 1) :=
  make_thumbs_manifest_selfconsistent cfg0 thinfo0 [some 0, some 2] 0 5 false rfl _ rfl

/-- C4: the three probe strategies are consulted in fixed order — fast
`ffprobe` stream/format query, then `ffprobe` packet count, then `ffmpeg`
copy-discard stderr scraping — each later one used only when every earlier
one failed to yield a usable duration and frame count; `ok = False` is
returned exactly when all three fail, and the returned meta then still
carries the `-1`/`-1.0` sentinels for frames, duration and fps. -/
theorem get_meta_fallback_chain :
    ∀ (ps : Option ℕ) (p1 : Option FastProbe) (p2 : Option PacketProbe)
      (p3 : Option (List (Option (ℤ × ℚ)))),
      ((get_meta ps p1 p2 p3).2 = false
          ↔ fast_result p1 = none ∧ packet_result p2 = none ∧ ffmpeg_result p3 = none)
      ∧ ((get_meta ps p1 p2 p3).2 = false →
          (get_meta ps p1 p2 p3).1.frames = -1
          ∧ (get_meta ps p1 p2 p3).1.duration = -1
          ∧ (get_meta ps p1 p2 p3).1.fps = -1)
      ∧ (∀ r, fast_result p1 = some r → get_meta ps p1 p2 p3 = (meta_of ps r, true))
      ∧ (fast_result p1 = none → ∀ r, packet_result p2 = some r →
          get_meta ps p1 p2 p3 = (meta_of ps r, true))
      ∧ (fast_result p1 = none → packet_result p2 = none →
          ∀ r, ffmpeg_result p3 = some r → get_meta ps p1 p2 p3 = (meta_of ps r, true)) := by
  intro ps p1 p2 p3
  rcases e1 : fast_result p1 with _ | r1
  · rcases e2 : packet_result p2 with _ | r2
    · rcases e3 : ffmpeg_result p3 with _ | r3
      · simp [get_meta, e1, e2, e3]
      · simp [get_meta, e1, e2, e3]
    · simp [get_meta, e1, e2]
  · simp [get_meta, e1]

/-- Witness for C4: with every probe failing, `get_meta` reports failure. -/
theorem get_meta_fallback_chain_witness :
    (get_meta none none none none).2 = false :=
  ((get_meta_fallback_chain none none none none).1).mpr ⟨rfl, rfl, rfl⟩

/-- Witness for the amended C6 theorem at a concrete configuration. -/
theorem select_flt_time_eq_skip_with_trunc_stride_witness :
    select_flt cfg_time thinfo_fps295
      = select_flt
          { cfg_time with
              method := "skip"
              frame_skip := time_stride cfg_time.time_skip thinfo_fps295.fps }
          thinfo_fps295 :=
  select_flt_time_eq_skip_with_trunc_stride cfg_time thinfo_fps295 rfl

/-- C10: when the requested subtitle stream `addss` is not strictly below the
probed subtitle-stream count `nsubs` (including every failed-probe case with
`nsubs = -1` and `addss ≥ 0`), `get_thinfo` silently resets `addss` to `-1`
(lines 2025-2026); that sanitised value is the one the candidate carries into
cache validation — so a manifest accepted with reuse off recorded `addss =
-1` as well — and the one recorded in any manifest persisted by
`make_thumbs` from this candidate. -/
theorem get_thinfo_addss_sanitised :
    ∀ (cfg : Cfg) (name path : String) (meta : VideoMeta) (idx0 : Option ThInfo)
      (lines : List (Option ℚ)) (retval date : ℤ),
      cfg.addss ≥ meta.nsubs →
      (get_thinfo_candidate cfg name path meta).addss = -1
      ∧ (cfg.force = false → cfg.reuse = false →
          ∀ c, get_thinfo cfg name path meta true idx0 = (some c, true) → c.addss = -1)
      ∧ (∀ m,
          (make_thumbs cfg (get_thinfo_candidate cfg name path meta) lines retval date
              false).written = some m →
          m.addss = -1) := by
  intro cfg name path meta idx0 lines retval date h
  have hc : (get_thinfo_candidate cfg name path meta).addss = -1 := by
    unfold get_thinfo_candidate
    dsimp only
    split_ifs with hge
    · rfl
    · exact absurd h hge
  refine ⟨hc, ?_, ?_⟩
  · intro hf hr c hgt
    simp only [get_thinfo, hf] at hgt
    rcases e : chk_idxfile cfg.reuse (get_thinfo_candidate cfg name path meta) idx0 with _ | chk <;>
      rw [e] at hgt <;> simp at hgt
    rcases idx0 with _ | idx
    · simp [chk_idxfile] at e
    · rw [chk_idxfile_eq] at e
      by_cases hmm : chk_matches cfg.reuse (get_thinfo_candidate cfg name path meta) idx
      · rw [if_pos hmm] at e
        obtain rfl : idx = chk := Option.some_injective _ e
        obtain ⟨-, -, -, -, -, h6⟩ := hmm
        rw [← hgt]
        exact ((h6 hr).2.2.1).trans hc
      · rw [if_neg hmm] at e
        exact absurd e (by simp)
  · intro m hm
    have hw : (make_thumbs cfg (get_thinfo_candidate cfg name path meta) lines retval date
          false).written
        = some ((make_thumbs cfg (get_thinfo_candidate cfg name path meta) lines retval date
          false).thinfo) := rfl
    rw [hw] at hm
    obtain rfl := Option.some_injective _ hm
    simpa [make_thumbs] using hc

/-- Witness for C10: requesting stream 0 while the subtitle probe failed
(`nsubs = -1`) leaves the sanitised candidate with `addss = -1`. -/
theorem get_thinfo_addss_sanitised_witness :
    (get_thinfo_candidate cfg_addss0 "v.mp4" "/home/u" meta_nosubs).addss = -1 :=
  (get_thinfo_addss_sanitised cfg_addss0 "v.mp4" "/home/u" meta_nosubs none [] 0 0
    (by decide)).1

end FFPreview
